import Mathlib

/-!
Shallow embedding of the `private-shares-banner` plugin (`src/__init__.py`).

The plugin is a per-peer moderation state machine driven by callbacks.
Pure Python methods become Lean functions on an explicit `PluginState`;
side effects on external collaborators (watch/unwatch, listing requests,
network-filter block, transfer aborts, private messages, log lines, share
snapshots) are recorded as an output `List Event`.  `check_shares` can raise
a `KeyError` (dictionary access `self.core.userbrowse.users[username]`), so
it returns `Except String _`.  Time is an `Int` number of seconds passed in
explicitly where the source calls `datetime.now`.
-/

namespace PrivateSharesBanner

/-- `UserState` enum of the source. -/
inductive UserState where
  | requestedShares
  | hasPrivateShares
  | noPrivateShares
  deriving DecidableEq, Repr

/-- `CheckReason` enum of the source. -/
inductive CheckReason where
  | search
  | distributedSearch
  | privateChat
  | uploadQueued
  | uploadStarted
  deriving DecidableEq, Repr

/-- Per-peer record: class `User` of the source.  `state = none` models
Python `None` (the implicit Unknown state); `requested_shares` is the
timestamp of the last listing request. -/
structure User where
  state : Option UserState
  requested_shares : Option Int
  sent_message : Bool
  emit_logs : Bool
  deriving DecidableEq, Repr

/-- `User.__init__`. -/
def User.new : User :=
  { state := none, requested_shares := none, sent_message := false, emit_logs := false }

/-- Buffered listing data held by the external `userbrowse` collaborator,
keyed by username (`BrowsedUser`).  `private_folders` is the ordered
sequence of privately shared folders; only presence and emptiness matter
to the plugin. -/
structure BrowsedUser where
  username : String
  num_folders : Option Nat
  num_files : Option Nat
  shared_size : Option Nat
  public_folders : List String
  private_folders : List String
  deriving DecidableEq, Repr

/-- `BrowsedUser(username)`: a freshly constructed, empty listing buffer. -/
def BrowsedUser.new (username : String) : BrowsedUser :=
  { username := username, num_folders := none, num_files := none,
    shared_size := none, public_folders := [], private_folders := [] }

/-- `BrowsedUser.clear()`: discard the buffered listing data. -/
def clearBrowsed (b : BrowsedUser) : BrowsedUser :=
  { b with num_folders := none, num_files := none, shared_size := none,
           public_folders := [], private_folders := [] }

/-- The plugin's settings dictionary (only as far as the code reads it). -/
structure Settings where
  verbose : Bool
  save_shares : Bool
  check_distributed_search : Bool
  send_message : Bool
  open_private_chat : Bool
  message : String
  deriving DecidableEq, Repr

/-- Observable side effects on the external collaborators.  `enforce` is a
ghost marker emitted at the entry of `ban_user` so that "enforcement ran"
is observable in the event trace. -/
inductive Event where
  | log (msg : String)
  | watch (username : String)
  | unwatch (username : String)
  | requestShares (username : String)
  | enforce (username : String)
  | banCall (username : String)
  | abortTransfer (username : String) (transfer : Nat)
  | sendPrivate (username : String) (line : String)
  | clearBrowse (username : String)
  | saveShares (username : String)
  deriving DecidableEq, Repr

/-- The whole mutable state the plugin code touches: its own fields
(`settings`, `users`) and the parts of the external collaborators it reads
or writes.  `users` is the `defaultdict(User)`: modelled as a total
function (absent keys map to `User.new`) plus `userKeys`, the insertion
order of materialised records.  `browse` is `core.userbrowse.users`
(a plain dict: `none` means a lookup would raise `KeyError`).  `banned` is
the network filter's ban list; the three transfer queues are read-only to
the plugin. -/
structure PluginState where
  settings : Settings
  users : String → User
  userKeys : List String
  browse : String → Option BrowsedUser
  banned : List String
  queued : String → List Nat
  active : String → List Nat
  failed : String → List Nat

/-- Reading `self.users[username]` on the `defaultdict` materialises the
record; this registers the key (the value read is `st.users username`). -/
def registerUser (st : PluginState) (username : String) : PluginState :=
  if username ∈ st.userKeys then st
  else { st with userKeys := st.userKeys ++ [username] }

/-- Write a user record back (object mutation in the source). -/
def setUserFn (st : PluginState) (username : String) (u : User) : PluginState :=
  { st with users := fun v => if v = username then u else st.users v }

/-- Python `str.splitlines`, modelled for newline-separated text. -/
def splitlines (s : String) : List String :=
  if s = "" then []
  else if s.endsWith "\n" then (s.splitOn "\n").dropLast
  else s.splitOn "\n"

/-- The cooldown test of `User.should_request_shares`:
`self.requested_shares is None or now - self.requested_shares >= timedelta(seconds=30)`. -/
def cooldownOk (now : Int) : Option Int → Bool
  | none => true
  | some t => decide (30 ≤ now - t)

/-- The eligibility condition of `User.should_request_shares`: state is
`None` (Unknown), or state is `RequestedShares` and the cooldown passed. -/
def eligible (u : User) (now : Int) : Bool :=
  decide (u.state = none) ||
    (decide (u.state = some UserState.requestedShares) && cooldownOk now u.requested_shares)

/-- `User.should_request_shares`: a query with a state-mutating effect on
success (sets state to `RequestedShares` and stamps the request time). -/
def should_request_shares (u : User) (now : Int) : Bool × User :=
  if eligible u now then
    (true, { u with state := some UserState.requestedShares, requested_shares := some now })
  else
    (false, u)

/-- The whitespace characters Python's `str.strip()` removes. -/
def isPySpace (c : Char) : Bool :=
  c = ' ' || c = '\t' || c = '\n' || c = '\r' || c = '\x0b' || c = '\x0c'

/-- Python `str.strip()` with no argument: drop leading and trailing
whitespace. -/
def pyStrip (s : String) : String :=
  String.mk (((s.data.dropWhile isPySpace).reverse.dropWhile isPySpace).reverse)

/-- `Plugin.check_message`: lazily disables message sending when the
configured message is blank; returns the (possibly updated) flag. -/
def check_message (st : PluginState) : Bool × PluginState × List Event :=
  if st.settings.send_message && (pyStrip st.settings.message == "") then
    (false,
     { st with settings := { st.settings with send_message := false } },
     [Event.log "message is empty, disabling message sending"])
  else
    (st.settings.send_message, st, [])

/-- Rendering of a `CheckReason` in an f-string, as Python prints the enum. -/
def reasonText : CheckReason → String
  | CheckReason.search => "CheckReason.Search"
  | CheckReason.distributedSearch => "CheckReason.DistributedSearch"
  | CheckReason.privateChat => "CheckReason.PrivateChat"
  | CheckReason.uploadQueued => "CheckReason.UploadQueued"
  | CheckReason.uploadStarted => "CheckReason.UploadStarted"

/-- The abort loop of `ban_user`: every transfer for `username` in the
queued, active and failed upload queues, in that order
(`core.uploads._abort_transfer` is an external call, recorded as an event;
`user_transfers.get` returning `None` and an empty list both abort
nothing). -/
def transferEvents (st : PluginState) (username : String) : List Event :=
  (st.queued username ++ st.active username ++ st.failed username).map
    (fun t => Event.abortTransfer username t)

/-- `Plugin.ban_user`: block via the network filter (unless already
blocked), abort all matching transfers, and send the configured message
lines once per user when messaging is enabled. -/
def ban_user (st : PluginState) (username : String) : PluginState × List Event :=
  let user := st.users username
  let banPart :=
    if username ∈ st.banned then
      (st, if user.emit_logs then [Event.log (username ++ ": user is already banned")] else [])
    else
      ({ st with banned := username :: st.banned },
       [Event.banCall username, Event.log (username ++ ": banned user")])
  let st1 := banPart.1
  let abortEv := transferEvents st1 username
  let countEv :=
    if abortEv.length ≠ 0 then
      [Event.log (username ++ ": aborted " ++ toString abortEv.length ++ " transfers")]
    else []
  if user.sent_message then
    (st1, Event.enforce username :: banPart.2 ++ abortEv ++ countEv)
  else
    let cm := check_message st1
    if cm.1 then
      (setUserFn cm.2.1 username { user with sent_message := true },
       Event.enforce username :: banPart.2 ++ abortEv ++ countEv ++ cm.2.2 ++
         (splitlines cm.2.1.settings.message).map
           (fun l => Event.sendPrivate username l.trimRight))
    else
      (cm.2.1, Event.enforce username :: banPart.2 ++ abortEv ++ countEv ++ cm.2.2)

/-- `Plugin.check_user`: the trigger handler.  Sets `emit_logs`, then
dispatches on the record's state: `NoPrivateShares` is a no-op,
`HasPrivateShares` re-enforces on download attempts, otherwise
`should_request_shares` decides whether to watch the peer and issue a
content-listing request (creating the `BrowsedUser` buffer if absent). -/
def check_user (st0 : PluginState) (username : String) (reason : CheckReason) (now : Int) :
    PluginState × List Event :=
  let st := registerUser st0 username
  let user0 := st.users username
  let user :=
    if st.settings.verbose = true ∨ reason ≠ CheckReason.distributedSearch then
      { user0 with emit_logs := true }
    else user0
  let st := setUserFn st username user
  if user.state = some UserState.noPrivateShares then
    (st, [])
  else if user.state = some UserState.hasPrivateShares then
    if reason = CheckReason.uploadQueued ∨ reason = CheckReason.uploadStarted then
      let banned := ban_user st username
      (banned.1,
       Event.log (username ++ ": banned user tried to download: " ++ reasonText reason)
         :: banned.2)
    else (st, [])
  else
    let srs := should_request_shares user now
    let st := setUserFn st username srs.2
    if srs.1 then
      let logEv :=
        if srs.2.emit_logs then
          [Event.log (username ++ ": requesting user shares: " ++ reasonText reason)]
        else []
      let st :=
        if (st.browse username).isSome then st
        else { st with browse := fun v => if v = username then some (BrowsedUser.new username) else st.browse v }
      (st, logEv ++ [Event.watch username, Event.requestShares username])
    else (st, [])

/-- `Plugin.check_shares`: the listing-result handler.  Raises `KeyError`
when the username has no entry in `core.userbrowse.users`; returns early
on an incomplete listing; otherwise classifies, possibly enforces and
saves a snapshot, and finally unwatches the peer and clears the buffer. -/
def check_shares (st0 : PluginState) (username : String) :
    Except String (PluginState × List Event) :=
  match st0.browse username with
  | none => Except.error ("KeyError: " ++ username)
  | some browsed_user =>
    if browsed_user.num_folders = none ∨ browsed_user.num_files = none then
      Except.ok (st0, [Event.log (username ++ ": shares are None")])
    else
      let st := registerUser st0 username
      let user := st.users username
      let verdict :=
        if browsed_user.private_folders.length = 0 then
          (setUserFn st username { user with state := some UserState.noPrivateShares },
           if user.emit_logs then [Event.log (username ++ ": user doesn't have private shares")] else [])
        else
          let logEv :=
            if user.emit_logs then [Event.log (username ++ ": user has private shares")] else []
          let st := setUserFn st username { user with state := some UserState.hasPrivateShares }
          let banned := ban_user st username
          let saveEv := if banned.1.settings.save_shares then [Event.saveShares username] else []
          (banned.1, logEv ++ banned.2 ++ saveEv)
      let st1 := verdict.1
      let st2 := { st1 with browse := fun v => if v = username then some (clearBrowsed browsed_user) else st1.browse v }
      Except.ok (st2, verdict.2 ++ [Event.unwatch username, Event.clearBrowse username])

/-- `Plugin.user_stats_notification`: ignores statistics not sourced from
a direct peer connection, otherwise runs the verdict evaluator. -/
def user_stats_notification (st : PluginState) (username : String) (source : String) :
    Except String (PluginState × List Event) :=
  if source ≠ "peer" then Except.ok (st, [])
  else check_shares st username

/-- The loop body of `Plugin.disable`, iterating over the materialised
records in insertion order: every peer still in `RequestedShares` is
unwatched and its listing buffer cleared (`userbrowse.users[username]`
raises `KeyError` when absent). -/
def disableGo (st : PluginState) : List String → Except String (PluginState × List Event)
  | [] => Except.ok (st, [])
  | username :: rest =>
    if (st.users username).state = some UserState.requestedShares then
      match st.browse username with
      | none => Except.error ("KeyError: " ++ username)
      | some b =>
        let st2 := { st with browse := fun v => if v = username then some (clearBrowsed b) else st.browse v }
        match disableGo st2 rest with
        | Except.error e => Except.error e
        | Except.ok (st3, evs) => Except.ok (st3, Event.unwatch username :: evs)
    else disableGo st rest

/-- `Plugin.disable`: shutdown cleanup over all known records. -/
def disable (st : PluginState) : Except String (PluginState × List Event) :=
  disableGo st st.userKeys

/-- `Plugin.init`: startup pre-seeding.  Checks the message once, seeds the
own login as `NoPrivateShares` and every banlist entry as
`HasPrivateShares` with `sent_message = true`. -/
def pluginInit (st0 : PluginState) (login : String) (banlist : List String) :
    PluginState × List Event :=
  let cm := check_message st0
  let st := cm.2.1
  let st := registerUser st login
  let st := setUserFn st login { st.users login with state := some UserState.noPrivateShares }
  let st := banlist.foldl (fun st username =>
    let st := registerUser st username
    setUserFn st username
      { st.users username with state := some UserState.hasPrivateShares, sent_message := true }) st
  (st, cm.2.2)

/-- The default settings from `Plugin.__init__`. -/
def defaultSettings : Settings :=
  { verbose := false, save_shares := false, check_distributed_search := false,
    send_message := false, open_private_chat := true,
    message := "Hey! I wanted to share my thoughts on private shares. While they can seem convenient, they often limit the community aspect of sharing and discovering new music. Private shares can create exclusivity, making it harder for others to access and enjoy the content. Let's keep the spirit of sharing alive by keeping our collections open!" }

/-- The plugin state right after construction, before `init`. -/
def initialState : PluginState :=
  { settings := defaultSettings, users := fun _ => User.new, userKeys := [],
    browse := fun _ => none, banned := [],
    queued := fun _ => [], active := fun _ => [], failed := fun _ => [] }

/-- Inbound callbacks (plus the environment delivering listing data into
the `userbrowse` buffer, which is how the external collaborator completes
a content-listing request). -/
inductive Callback where
  | search (u : String) (now : Int)
  | distribSearch (u : String) (now : Int)
  | privateChat (u : String) (now : Int)
  | uploadQueued (u : String) (now : Int)
  | uploadStarted (u : String) (now : Int)
  | userStats (u : String) (source : String)
  | deliverListing (u : String) (b : BrowsedUser)

/-- One callback dispatch, as the plugin system would route it
(`distrib_search_notification` is gated by the configuration flag). -/
def step (st : PluginState) : Callback → Except String (PluginState × List Event)
  | Callback.search u now => Except.ok (check_user st u CheckReason.search now)
  | Callback.distribSearch u now =>
      Except.ok (if st.settings.check_distributed_search then
        check_user st u CheckReason.distributedSearch now else (st, []))
  | Callback.privateChat u now => Except.ok (check_user st u CheckReason.privateChat now)
  | Callback.uploadQueued u now => Except.ok (check_user st u CheckReason.uploadQueued now)
  | Callback.uploadStarted u now => Except.ok (check_user st u CheckReason.uploadStarted now)
  | Callback.userStats u source => user_stats_notification st u source
  | Callback.deliverListing u b =>
      Except.ok ({ st with browse := fun v => if v = u then some b else st.browse v }, [])

/-- Run a sequence of callbacks, accumulating events; stops at the first
uncaught exception. -/
def run (st : PluginState) : List Callback → Except String (PluginState × List Event)
  | [] => Except.ok (st, [])
  | c :: rest =>
    match step st c with
    | Except.error e => Except.error e
    | Except.ok (st1, ev1) =>
      match run st1 rest with
      | Except.error e => Except.error e
      | Except.ok (st2, ev2) => Except.ok (st2, ev1 ++ ev2)

/-! ### Observation helpers over event traces -/

/-- Is this event a content-listing request? -/
def isRequestEv : Event → Bool
  | Event.requestShares _ => true
  | _ => false

/-- Is this event a network-filter block call? -/
def isBanCallEv : Event → Bool
  | Event.banCall _ => true
  | _ => false

/-- Is this event a private-message send? -/
def isSendEv : Event → Bool
  | Event.sendPrivate _ _ => true
  | _ => false

/-- Is this event a watch release? -/
def isUnwatchEv : Event → Bool
  | Event.unwatch _ => true
  | _ => false

/-- Is this event a transfer abort? -/
def isAbortEv : Event → Bool
  | Event.abortTransfer _ _ => true
  | _ => false

/-- Is this event the entry marker of `ban_user`? -/
def isEnforceEv : Event → Bool
  | Event.enforce _ => true
  | _ => false

/-- Number of content-listing requests in a trace. -/
def requestCount (evs : List Event) : Nat := evs.countP (fun e => isRequestEv e)

/-- Number of network-filter block calls in a trace. -/
def banCallCount (evs : List Event) : Nat := evs.countP (fun e => isBanCallEv e)

/-- Number of enforcement invocations in a trace. -/
def enforceCount (evs : List Event) : Nat := evs.countP (fun e => isEnforceEv e)

/-- Number of transfer aborts in a trace. -/
def abortCount (evs : List Event) : Nat := evs.countP (fun e => isAbortEv e)

/-- Number of watch releases in a trace. -/
def unwatchCount (evs : List Event) : Nat := evs.countP (fun e => isUnwatchEv e)

/-- Does the trace send any private message? -/
def hasSend (evs : List Event) : Bool := evs.any (fun e => isSendEv e)

/-- The private-message sends of a trace, in order. -/
def sendEvents (evs : List Event) : List Event := evs.filter (fun e => isSendEv e)

/-- A listing buffer entry that has been cleared (single-use data
discarded). -/
def clearedBuf : Option BrowsedUser → Bool
  | none => false
  | some b =>
      b.num_folders.isNone && b.num_files.isNone && b.shared_size.isNone &&
      b.public_folders.isEmpty && b.private_folders.isEmpty

/-! ### Concrete fixtures and observers for witnesses and counterexamples -/

/-- A record in `RequestedShares` since time 0, with logging on. -/
def recRequested : User :=
  { state := some UserState.requestedShares, requested_shares := some 0,
    sent_message := false, emit_logs := true }

/-- A record already cleared (`NoPrivateShares`), investigated at time 0. -/
def recCleared : User :=
  { state := some UserState.noPrivateShares, requested_shares := some 0,
    sent_message := false, emit_logs := true }

/-- A single-peer test state: one materialised record for `"alice"` and an
optional listing buffer entry for her. -/
def fixture (s : Settings) (rec : User) (buf : Option BrowsedUser) : PluginState :=
  { settings := s,
    users := fun v => if v = "alice" then rec else User.new,
    userKeys := ["alice"],
    browse := fun v => if v = "alice" then buf else none,
    banned := [],
    queued := fun _ => [], active := fun _ => [], failed := fun _ => [] }

/-- A complete listing with one private folder. -/
def listingPrivate : BrowsedUser :=
  { username := "alice", num_folders := some 10, num_files := some 100,
    shared_size := some 1000, public_folders := ["music"], private_folders := ["secret"] }

/-- A complete listing with no private folders. -/
def listingClean : BrowsedUser :=
  { username := "alice", num_folders := some 10, num_files := some 100,
    shared_size := some 1000, public_folders := ["music"], private_folders := [] }

/-- An incomplete listing: the folder count is absent while other buffered
data is present. -/
def listingIncomplete : BrowsedUser :=
  { username := "alice", num_folders := none, num_files := some 5,
    shared_size := none, public_folders := [], private_folders := ["secret"] }

/-- Messaging enabled with a two-line message. -/
def msgSettings : Settings :=
  { defaultSettings with send_message := true, message := "hello\nworld" }

/-- Messaging enabled but a whitespace-only message. -/
def blankMsgSettings : Settings :=
  { defaultSettings with send_message := true, message := "   " }

/-- The state right after startup (`init` with login `"me"`, empty banlist). -/
def startState : PluginState := (pluginInit initialState "me" []).1

/-- Reachable scenario: a search trigger for `"alice"`, her listing (with a
private folder) arrives, and the peer-statistics callback evaluates it. -/
def scenarioFlag : List Callback :=
  [Callback.search "alice" 0, Callback.deliverListing "alice" listingPrivate,
   Callback.userStats "alice" "peer"]

/-- `scenarioFlag` followed by a second listing without private folders and
its peer-statistics callback. -/
def scenarioUnflag : List Callback :=
  scenarioFlag ++
    [Callback.deliverListing "alice" listingClean, Callback.userStats "alice" "peer"]

/-- Reachable scenario: `"alice"` is investigated and cleared, then a new
search trigger arrives well after the cooldown. -/
def scenarioClearedRetry : List Callback :=
  [Callback.search "alice" 0, Callback.deliverListing "alice" listingClean,
   Callback.userStats "alice" "peer", Callback.search "alice" 1000]

/-- Observe the state of one record in a run result. -/
def stateOf (r : Except String (PluginState × List Event)) (u : String) :
    Option (Option UserState) :=
  match r with
  | Except.ok p => some ((p.1.users u).state)
  | Except.error _ => none

/-- Observe the number of content-listing requests in a run result. -/
def requestsOf (r : Except String (PluginState × List Event)) : Option Nat :=
  match r with
  | Except.ok p => some (requestCount p.2)
  | Except.error _ => none

/-- Did the callback complete without raising? -/
def okResult (r : Except String (PluginState × List Event)) : Bool :=
  match r with
  | Except.ok _ => true
  | Except.error _ => false

/-- Observe the verdict of `check_shares`: the resulting record state and
the number of enforcement invocations. -/
def verdictObs (st : PluginState) (u : String) : Option (Option UserState × Nat) :=
  match check_shares st u with
  | Except.ok p => some ((p.1.users u).state, enforceCount p.2)
  | Except.error _ => none

/-- Observe the cleanup of `check_shares`: the number of unwatch events and
the final listing buffer entry. -/
def watchObs (st : PluginState) (u : String) : Option (Nat × Option BrowsedUser) :=
  match check_shares st u with
  | Except.ok p => some (unwatchCount p.2, p.1.browse u)
  | Except.error _ => none

/-- Observe shutdown cleanup: whether `disable` unwatched `v` and whether
`v`'s buffer ended cleared. -/
def disableObs (st : PluginState) (v : String) : Option (Bool × Bool) :=
  match disable st with
  | Except.ok p => some (decide (Event.unwatch v ∈ p.2), clearedBuf (p.1.browse v))
  | Except.error _ => none

/-- A state with a buffered listing for `"alice"` but no record for her at
all (no key materialised). -/
def freshBrowseState : PluginState :=
  { initialState with browse := fun v => if v = "alice" then some listingClean else none }

/-- Observe a peer-statistics callback: whether the record key was
materialised and the resulting record state. -/
def statsObs (st : PluginState) (u : String) : Option (Bool × Option UserState) :=
  match user_stats_notification st u "peer" with
  | Except.ok p => some (decide (u ∈ p.1.userKeys), (p.1.users u).state)
  | Except.error _ => none

/-! ### Frame lemmas for the state-access helpers -/

theorem registerUser_users (st : PluginState) (u : String) :
    (registerUser st u).users = st.users := by
  unfold registerUser; split <;> rfl

theorem registerUser_settings (st : PluginState) (u : String) :
    (registerUser st u).settings = st.settings := by
  unfold registerUser; split <;> rfl

theorem registerUser_browse (st : PluginState) (u : String) :
    (registerUser st u).browse = st.browse := by
  unfold registerUser; split <;> rfl

theorem registerUser_banned (st : PluginState) (u : String) :
    (registerUser st u).banned = st.banned := by
  unfold registerUser; split <;> rfl

theorem setUserFn_users_self (st : PluginState) (u : String) (r : User) :
    (setUserFn st u r).users u = r := by
  simp [setUserFn]

theorem setUserFn_users_other (st : PluginState) (u v : String) (r : User) (h : v ≠ u) :
    (setUserFn st u r).users v = st.users v := by
  simp [setUserFn, h]

theorem check_message_users (st : PluginState) :
    (check_message st).2.1.users = st.users := by
  unfold check_message; split <;> rfl

theorem check_message_msg (st : PluginState) :
    (check_message st).2.1.settings.message = st.settings.message := by
  unfold check_message; split <;> rfl

theorem check_message_banned (st : PluginState) :
    (check_message st).2.1.banned = st.banned := by
  unfold check_message; split <;> rfl

theorem check_message_browse (st : PluginState) :
    (check_message st).2.1.browse = st.browse := by
  unfold check_message; split <;> rfl

/-- `check_message` can only report `true` when the flag was already on and
the message is non-blank; in that case it changes nothing. -/
theorem check_message_true (st : PluginState) (h : (check_message st).1 = true) :
    check_message st = (true, st, []) ∧ st.settings.send_message = true ∧
      (pyStrip st.settings.message == "") = false := by
  unfold check_message at h ⊢
  split at h
  · exact absurd h (by simp)
  · rename_i hc
    rw [if_neg hc]
    have hs : st.settings.send_message = true := h
    have hm : (pyStrip st.settings.message == "") = false := by
      cases hmm : (pyStrip st.settings.message == "") with
      | false => rfl
      | true => exact absurd (by simp [hs, hmm]) hc
    exact ⟨by simp [hs], hs, hm⟩

/-- With a blank configured message, `check_message` never reports `true`. -/
theorem check_message_blank (st : PluginState) (h : pyStrip st.settings.message = "") :
    (check_message st).1 = false := by
  unfold check_message
  split
  · rfl
  · rename_i hc
    cases hs : st.settings.send_message
    · rfl
    · exact absurd (by simp [hs, h]) hc

/-! ### Generic trace lemmas -/

theorem countP_map_eq_zero {α : Type} (p : Event → Bool) (f : α → Event) (l : List α)
    (h : ∀ a, p (f a) = false) : (l.map f).countP (fun e => p e) = 0 := by
  rw [List.countP_eq_zero]
  intro e he
  simp only [List.mem_map] at he
  obtain ⟨a, _, rfl⟩ := he
  simp [h]

theorem any_map_eq_false {α : Type} (p : Event → Bool) (f : α → Event) (l : List α)
    (h : ∀ a, p (f a) = false) : (l.map f).any (fun e => p e) = false := by
  rw [List.any_eq_false]
  intro e he
  simp only [List.mem_map] at he
  obtain ⟨a, _, rfl⟩ := he
  simp [h]

/-! ### Lemmas about `ban_user` -/

theorem ban_user_users_state (st : PluginState) (u v : String) :
    (((ban_user st u).1).users v).state = (st.users v).state := by
  unfold ban_user check_message setUserFn
  by_cases hb : u ∈ st.banned <;>
    cases hs : (st.users u).sent_message <;>
      simp [hb, hs] <;>
      (repeat (split <;> simp_all))

theorem countP_abortMap (p : Event → Bool) (u : String) (l : List Nat)
    (h : ∀ t, p (Event.abortTransfer u t) = false) :
    (l.map (fun t => Event.abortTransfer u t)).countP (fun e => p e) = 0 :=
  countP_map_eq_zero _ _ _ (fun t => h t)

theorem countP_sendMap (p : Event → Bool) (u : String) (l : List String)
    (h : ∀ s : String, p (Event.sendPrivate u s.trimRight) = false) :
    (l.map (fun l => Event.sendPrivate u l.trimRight)).countP (fun e => p e) = 0 :=
  countP_map_eq_zero _ _ _ (fun s => h s)

theorem ban_user_no_request (st : PluginState) (u : String) :
    requestCount (ban_user st u).2 = 0 := by
  have hab : ∀ l : List Nat, (l.map (fun t => Event.abortTransfer u t)).countP (fun e => isRequestEv e) = 0 :=
    fun l => countP_abortMap _ _ _ (fun _ => rfl)
  have hsd : ∀ l : List String, (l.map (fun l => Event.sendPrivate u l.trimRight)).countP (fun e => isRequestEv e) = 0 :=
    fun l => countP_sendMap _ _ _ (fun _ => rfl)
  unfold ban_user transferEvents requestCount
  by_cases hb : u ∈ st.banned <;>
    cases hs : (st.users u).sent_message <;>
      simp [hb, hs, check_message, List.countP_append, List.countP_cons, isRequestEv,
            hab, hsd, -List.countP_eq_zero] <;>
      (repeat (split <;>
        simp_all [List.countP_append, List.countP_cons, isRequestEv, hab, hsd,
                  -List.countP_eq_zero]))

theorem ban_user_enforce_once (st : PluginState) (u : String) :
    enforceCount (ban_user st u).2 = 1 := by
  have hab : ∀ l : List Nat, (l.map (fun t => Event.abortTransfer u t)).countP (fun e => isEnforceEv e) = 0 :=
    fun l => countP_abortMap _ _ _ (fun _ => rfl)
  have hsd : ∀ l : List String, (l.map (fun l => Event.sendPrivate u l.trimRight)).countP (fun e => isEnforceEv e) = 0 :=
    fun l => countP_sendMap _ _ _ (fun _ => rfl)
  unfold ban_user transferEvents enforceCount
  by_cases hb : u ∈ st.banned <;>
    cases hs : (st.users u).sent_message <;>
      simp [hb, hs, check_message, List.countP_append, List.countP_cons, isEnforceEv,
            hab, hsd, -List.countP_eq_zero] <;>
      (repeat (split <;>
        simp_all [List.countP_append, List.countP_cons, isEnforceEv, hab, hsd,
                  -List.countP_eq_zero]))

theorem ban_user_mem_banned (st : PluginState) (u : String) :
    u ∈ (ban_user st u).1.banned := by
  unfold ban_user check_message setUserFn
  by_cases hb : u ∈ st.banned <;>
    cases hs : (st.users u).sent_message <;>
      simp [hb, hs] <;>
      (repeat (split <;> simp_all))

theorem ban_user_banCall (st : PluginState) (u : String) :
    banCallCount (ban_user st u).2 = if u ∈ st.banned then 0 else 1 := by
  have hab : ∀ l : List Nat, (l.map (fun t => Event.abortTransfer u t)).countP (fun e => isBanCallEv e) = 0 :=
    fun l => countP_abortMap _ _ _ (fun _ => rfl)
  have hsd : ∀ l : List String, (l.map (fun l => Event.sendPrivate u l.trimRight)).countP (fun e => isBanCallEv e) = 0 :=
    fun l => countP_sendMap _ _ _ (fun _ => rfl)
  unfold ban_user transferEvents banCallCount
  by_cases hb : u ∈ st.banned <;>
    cases hs : (st.users u).sent_message <;>
      simp [hb, hs, check_message, List.countP_append, List.countP_cons, isBanCallEv,
            hab, hsd, -List.countP_eq_zero] <;>
      (repeat (split <;>
        simp_all [List.countP_append, List.countP_cons, isBanCallEv, hab, hsd,
                  -List.countP_eq_zero]))

theorem any_send_abortMap (u : String) (l : List Nat) :
    (l.map (fun t => Event.abortTransfer u t)).any (fun e => isSendEv e) = false :=
  any_map_eq_false _ _ _ (fun _ => rfl)

theorem filter_send_abortMap (u : String) (l : List Nat) :
    (l.map (fun t => Event.abortTransfer u t)).filter (fun e => isSendEv e) = [] := by
  induction l with
  | nil => rfl
  | cons a l ih => simp [List.filter_cons, ih, isSendEv]

theorem filter_send_sendMap (u : String) (l : List String) :
    (l.map (fun l => Event.sendPrivate u l.trimRight)).filter (fun e => isSendEv e) =
      l.map (fun l => Event.sendPrivate u l.trimRight) := by
  induction l with
  | nil => rfl
  | cons a l ih => simp [List.filter_cons, ih, isSendEv]

theorem ban_user_settings_msg (st : PluginState) (u : String) :
    (ban_user st u).1.settings.message = st.settings.message := by
  unfold ban_user check_message setUserFn
  by_cases hb : u ∈ st.banned <;>
    cases hs : (st.users u).sent_message <;>
      simp [hb, hs] <;>
      (repeat (split <;> simp_all))

theorem ban_user_queues (st : PluginState) (u : String) :
    (ban_user st u).1.queued = st.queued ∧ (ban_user st u).1.active = st.active ∧
      (ban_user st u).1.failed = st.failed := by
  unfold ban_user check_message setUserFn
  by_cases hb : u ∈ st.banned <;>
    cases hs : (st.users u).sent_message <;>
      simp [hb, hs] <;>
      (repeat (split <;> simp_all))

theorem ban_user_banned_mono (st : PluginState) (u v : String) (h : v ∈ st.banned) :
    v ∈ (ban_user st u).1.banned := by
  unfold ban_user check_message setUserFn
  by_cases hb : u ∈ st.banned <;>
    cases hs : (st.users u).sent_message <;>
      simp [hb, hs] <;>
      (repeat (split <;> simp_all)) <;> (first | exact h | exact Or.inr h)

theorem ban_user_sent_no_send (st : PluginState) (u : String)
    (h : (st.users u).sent_message = true) :
    hasSend (ban_user st u).2 = false := by
  unfold ban_user transferEvents hasSend
  simp [h, List.any_append, any_send_abortMap, isSendEv] <;>
    (repeat (split <;> simp_all [List.any_append, any_send_abortMap, isSendEv])) <;>
    (try aesop)

theorem ban_user_send_sets (st : PluginState) (u : String)
    (h : hasSend (ban_user st u).2 = true) :
    ((ban_user st u).1.users u).sent_message = true := by
  unfold hasSend at h
  unfold ban_user transferEvents at h ⊢
  by_cases hb : u ∈ st.banned <;>
    cases hs : (st.users u).sent_message <;>
      simp [hb, hs, List.any_append, any_send_abortMap, isSendEv, check_message] at h ⊢ <;>
      (repeat (split <;>
        simp_all [List.any_append, any_send_abortMap, isSendEv, setUserFn, check_message])) <;>
      (try aesop)

theorem ban_user_blank_no_send (st : PluginState) (u : String)
    (h : pyStrip st.settings.message = "") :
    hasSend (ban_user st u).2 = false := by
  unfold ban_user transferEvents hasSend
  by_cases hb : u ∈ st.banned <;>
    cases hs : (st.users u).sent_message <;>
      simp [hb, hs, check_message, h, List.any_append, any_send_abortMap, isSendEv] <;>
      (repeat (split <;> simp_all [List.any_append, any_send_abortMap, isSendEv])) <;>
      (try aesop)

theorem ban_user_off_frame (st : PluginState) (u : String)
    (h : st.settings.send_message = false) :
    (ban_user st u).1.users = st.users ∧ hasSend (ban_user st u).2 = false := by
  unfold ban_user transferEvents hasSend
  by_cases hb : u ∈ st.banned <;>
    cases hs : (st.users u).sent_message <;>
      simp [hb, hs, check_message, h, List.any_append, any_send_abortMap, isSendEv] <;>
      (repeat (split <;> simp_all [List.any_append, any_send_abortMap, isSendEv])) <;>
      (try aesop)

theorem ban_user_abort_zero (st : PluginState) (u : String)
    (hq : st.queued u = []) (ha : st.active u = []) (hf : st.failed u = []) :
    abortCount (ban_user st u).2 = 0 := by
  unfold ban_user transferEvents abortCount
  by_cases hb : u ∈ st.banned <;>
    cases hs : (st.users u).sent_message <;>
      simp [hb, hs, check_message, hq, ha, hf, List.countP_append, List.countP_cons,
            isAbortEv, List.countP_map, Function.comp_def, -List.countP_eq_zero] <;>
      (repeat (split <;>
        simp_all [List.countP_append, List.countP_cons, isAbortEv, List.countP_map,
                  Function.comp_def, -List.countP_eq_zero]))

/-! ### Lemmas about `check_user` -/

theorem setUserFn_settings (st : PluginState) (u : String) (r : User) :
    (setUserFn st u r).settings = st.settings := rfl

theorem setUserFn_browse (st : PluginState) (u : String) (r : User) :
    (setUserFn st u r).browse = st.browse := rfl

theorem setUserFn_banned (st : PluginState) (u : String) (r : User) :
    (setUserFn st u r).banned = st.banned := rfl

theorem requestCount_nil : requestCount [] = 0 := rfl

theorem requestCount_cons (e : Event) (evs : List Event) :
    requestCount (e :: evs) = requestCount evs + (if isRequestEv e then 1 else 0) := by
  simp [requestCount, List.countP_cons]

theorem requestCount_append (a b : List Event) :
    requestCount (a ++ b) = requestCount a + requestCount b := by
  simp [requestCount, List.countP_append]

/-- `check_user` issues a content-listing request exactly when the record
is eligible (and at most one per trigger). -/
theorem check_user_request_count (st : PluginState) (u : String) (r : CheckReason) (now : Int) :
    requestCount (check_user st u r now).2 = if eligible (st.users u) now then 1 else 0 := by
  unfold check_user
  cases hst : (st.users u).state with
  | none =>
    simp [registerUser_users, registerUser_settings, registerUser_browse, hst,
          should_request_shares, eligible, requestCount_cons, requestCount_append,
          requestCount_nil, isRequestEv] <;>
      (repeat (split <;>
        simp_all [requestCount_cons, requestCount_append, requestCount_nil, isRequestEv]))
  | some s =>
    cases s with
    | requestedShares =>
      simp [registerUser_users, registerUser_settings, registerUser_browse, hst,
            should_request_shares, eligible, requestCount_cons, requestCount_append,
            requestCount_nil, isRequestEv] <;>
        (repeat (split <;>
          simp_all [requestCount_cons, requestCount_append, requestCount_nil, isRequestEv]))
    | hasPrivateShares =>
      simp [registerUser_users, registerUser_settings, registerUser_browse, hst,
            eligible, requestCount_cons, requestCount_append, requestCount_nil,
            isRequestEv, ban_user_no_request] <;>
        (repeat (split <;>
          simp_all [requestCount_cons, requestCount_append, requestCount_nil, isRequestEv,
                    ban_user_no_request]))
    | noPrivateShares =>
      simp [registerUser_users, registerUser_settings, registerUser_browse, hst,
            eligible, requestCount_nil] <;>
        (repeat (split <;> simp_all [requestCount_nil]))

/-- After a trigger on an Unknown record, the record is in
`RequestedShares` stamped with the trigger time. -/
theorem check_user_after_none (st : PluginState) (u : String) (r : CheckReason) (now : Int)
    (hst : (st.users u).state = none) :
    ((check_user st u r now).1.users u).state = some UserState.requestedShares ∧
    ((check_user st u r now).1.users u).requested_shares = some now := by
  unfold check_user
  simp [registerUser_users, registerUser_settings, registerUser_browse, hst,
        should_request_shares, eligible, setUserFn] <;>
    (repeat (split <;> simp_all [setUserFn]))

/-- A trigger on a `NoPrivateShares` (Cleared) record emits no events at
all and leaves the state `NoPrivateShares`. -/
theorem check_user_cleared_noop (st : PluginState) (u : String) (r : CheckReason) (now : Int)
    (hst : (st.users u).state = some UserState.noPrivateShares) :
    (check_user st u r now).2 = [] ∧
    ((check_user st u r now).1.users u).state = some UserState.noPrivateShares := by
  unfold check_user
  simp [registerUser_users, hst, setUserFn] <;>
    (repeat (split <;> simp_all [setUserFn]))

/-- A trigger on a `HasPrivateShares` (Flagged) record never changes its
state. -/
theorem check_user_flagged_state (st : PluginState) (u : String) (r : CheckReason) (now : Int)
    (hst : (st.users u).state = some UserState.hasPrivateShares) :
    ((check_user st u r now).1.users u).state = some UserState.hasPrivateShares := by
  unfold check_user
  simp [registerUser_users, hst, setUserFn, ban_user_users_state] <;>
    (repeat (split <;> simp_all [setUserFn, ban_user_users_state]))

/-- A trigger on a `RequestedShares` record leaves it in
`RequestedShares` (re-request or no-op). -/
theorem check_user_req_state (st : PluginState) (u : String) (r : CheckReason) (now : Int)
    (hst : (st.users u).state = some UserState.requestedShares) :
    ((check_user st u r now).1.users u).state = some UserState.requestedShares := by
  unfold check_user
  simp [registerUser_users, hst, setUserFn, should_request_shares] <;>
    (repeat (split <;> simp_all [setUserFn]))

/-- A trigger for `u` never changes another record's state. -/
theorem check_user_state_other (st : PluginState) (u : String) (r : CheckReason) (now : Int)
    (v : String) (hv : v ≠ u) :
    ((check_user st u r now).1.users v).state = (st.users v).state := by
  unfold check_user
  cases hst : (st.users u).state with
  | none =>
      simp [registerUser_users, hst, setUserFn, should_request_shares, hv] <;>
        (repeat (split <;> simp_all [setUserFn, hv]))
  | some s =>
      cases s <;>
        simp [registerUser_users, hst, setUserFn, should_request_shares,
              ban_user_users_state, hv] <;>
        (repeat (split <;> simp_all [setUserFn, ban_user_users_state, hv]))

/-! ### Lemmas about `check_shares` and `disable` -/

theorem enforceCount_nil : enforceCount [] = 0 := rfl

theorem unwatchCount_nil : unwatchCount [] = 0 := rfl

theorem enforceCount_cons (e : Event) (evs : List Event) :
    enforceCount (e :: evs) = enforceCount evs + (if isEnforceEv e then 1 else 0) := by
  simp [enforceCount, List.countP_cons]

theorem enforceCount_append (a b : List Event) :
    enforceCount (a ++ b) = enforceCount a + enforceCount b := by
  simp [enforceCount, List.countP_append]

theorem unwatchCount_cons (e : Event) (evs : List Event) :
    unwatchCount (e :: evs) = unwatchCount evs + (if isUnwatchEv e then 1 else 0) := by
  simp [unwatchCount, List.countP_cons]

theorem unwatchCount_append (a b : List Event) :
    unwatchCount (a ++ b) = unwatchCount a + unwatchCount b := by
  simp [unwatchCount, List.countP_append]

theorem ban_user_browse (st : PluginState) (u : String) :
    (ban_user st u).1.browse = st.browse := by
  unfold ban_user check_message setUserFn
  by_cases hb : u ∈ st.banned <;>
    cases hs : (st.users u).sent_message <;>
      simp [hb, hs] <;>
      (repeat (split <;> simp_all))

theorem ban_user_userKeys (st : PluginState) (u : String) :
    (ban_user st u).1.userKeys = st.userKeys := by
  unfold ban_user check_message setUserFn
  by_cases hb : u ∈ st.banned <;>
    cases hs : (st.users u).sent_message <;>
      simp [hb, hs] <;>
      (repeat (split <;> simp_all))

theorem registerUser_mem (st : PluginState) (u : String) :
    u ∈ (registerUser st u).userKeys := by
  unfold registerUser
  split
  · assumption
  · simp

theorem banCallCount_append (a b : List Event) :
    banCallCount (a ++ b) = banCallCount a + banCallCount b := by
  simp [banCallCount, List.countP_append]

theorem abortCount_append (a b : List Event) :
    abortCount (a ++ b) = abortCount a + abortCount b := by
  simp [abortCount, List.countP_append]

theorem ban_user_no_unwatch (st : PluginState) (u : String) :
    unwatchCount (ban_user st u).2 = 0 := by
  have hab : ∀ l : List Nat, (l.map (fun t => Event.abortTransfer u t)).countP (fun e => isUnwatchEv e) = 0 :=
    fun l => countP_abortMap _ _ _ (fun _ => rfl)
  have hsd : ∀ l : List String, (l.map (fun l => Event.sendPrivate u l.trimRight)).countP (fun e => isUnwatchEv e) = 0 :=
    fun l => countP_sendMap _ _ _ (fun _ => rfl)
  unfold ban_user transferEvents unwatchCount
  by_cases hb : u ∈ st.banned <;>
    cases hs : (st.users u).sent_message <;>
      simp [hb, hs, check_message, List.countP_append, List.countP_cons, isUnwatchEv,
            hab, hsd, -List.countP_eq_zero] <;>
      (repeat (split <;>
        simp_all [List.countP_append, List.countP_cons, isUnwatchEv, hab, hsd,
                  -List.countP_eq_zero]))

/-- An incomplete listing (a required field absent) makes `check_shares`
log and return with the whole state unchanged. -/
theorem check_shares_incomplete_eq (st : PluginState) (u : String) (b : BrowsedUser)
    (hb : st.browse u = some b) (h : b.num_folders = none ∨ b.num_files = none) :
    check_shares st u = Except.ok (st, [Event.log (u ++ ": shares are None")]) := by
  unfold check_shares
  rw [hb]
  simp [h]

/-- A complete listing classifies the peer from its private-folder list,
enforces exactly when it is non-empty, and always releases the watch and
clears the buffer. -/
theorem check_shares_complete (st : PluginState) (u : String) (b : BrowsedUser)
    (hb : st.browse u = some b) (hf : b.num_folders ≠ none) (hfi : b.num_files ≠ none) :
    ∃ st' ev, check_shares st u = Except.ok (st', ev) ∧
      (st'.users u).state = (if b.private_folders.length = 0 then
        some UserState.noPrivateShares else some UserState.hasPrivateShares) ∧
      enforceCount ev = (if b.private_folders.length = 0 then 0 else 1) ∧
      unwatchCount ev = 1 ∧
      st'.browse u = some (clearBrowsed b) ∧
      u ∈ st'.userKeys := by
  unfold check_shares
  rw [hb]
  dsimp only
  have hcond : ¬(b.num_folders = none ∨ b.num_files = none) := by simp [hf, hfi]
  rw [if_neg hcond]
  refine ⟨_, _, rfl, ?_, ?_, ?_, ?_, ?_⟩ <;>
    by_cases hp : b.private_folders.length = 0 <;>
      simp [hp, registerUser_users, registerUser_browse, setUserFn, ban_user_users_state,
            ban_user_browse, ban_user_enforce_once, ban_user_no_unwatch,
            enforceCount_cons, enforceCount_append, enforceCount_nil,
            unwatchCount_cons, unwatchCount_append, unwatchCount_nil,
            isEnforceEv, isUnwatchEv, ban_user_userKeys, registerUser_mem] <;>
      (repeat (split <;>
        simp_all [setUserFn, ban_user_users_state, ban_user_browse, ban_user_enforce_once,
                  ban_user_no_unwatch, enforceCount_cons, enforceCount_append, enforceCount_nil,
                  unwatchCount_cons, unwatchCount_append, unwatchCount_nil,
                  isEnforceEv, isUnwatchEv, ban_user_userKeys, registerUser_mem]))

theorem clearedBuf_clearBrowsed (b : BrowsedUser) :
    clearedBuf (some (clearBrowsed b)) = true := rfl

/-- `disableGo` only ever writes cleared buffer entries. -/
theorem disableGo_browse_mono (keys : List String) :
    ∀ (st st' : PluginState) (evs : List Event), disableGo st keys = Except.ok (st', evs) →
      ∀ v, st'.browse v = st.browse v ∨ clearedBuf (st'.browse v) = true := by
  induction keys with
  | nil =>
    intro st st' evs h v
    unfold disableGo at h
    simp only [Except.ok.injEq, Prod.mk.injEq] at h
    obtain ⟨h1, -⟩ := h
    subst h1
    exact Or.inl rfl
  | cons k rest ih =>
    intro st st' evs h v
    unfold disableGo at h
    by_cases hk : (st.users k).state = some UserState.requestedShares
    · rw [if_pos hk] at h
      cases hbk : st.browse k with
      | none => rw [hbk] at h; simp at h
      | some b =>
        rw [hbk] at h
        simp only [] at h
        cases hrec : disableGo
            { st with browse := fun w => if w = k then some (clearBrowsed b) else st.browse w }
            rest with
        | error e => rw [hrec] at h; simp at h
        | ok p =>
          obtain ⟨st3, evs3⟩ := p
          rw [hrec] at h
          simp only [Except.ok.injEq, Prod.mk.injEq] at h
          obtain ⟨h1, -⟩ := h
          subst h1
          rcases ih _ _ _ hrec v with h2 | h2
          · rw [h2]
            by_cases hv : v = k
            · subst hv; simp [clearedBuf_clearBrowsed]
            · simp [hv]
          · exact Or.inr h2
    · rw [if_neg hk] at h
      exact ih _ _ _ h v

/-- Every record still in `RequestedShares` when `disableGo` runs gets an
unwatch event and ends with a cleared listing buffer. -/
theorem disableGo_unwatch (keys : List String) :
    ∀ (st st' : PluginState) (evs : List Event), disableGo st keys = Except.ok (st', evs) →
      ∀ v ∈ keys, (st.users v).state = some UserState.requestedShares →
        Event.unwatch v ∈ evs ∧ clearedBuf (st'.browse v) = true := by
  induction keys with
  | nil => intro st st' evs h v hv; cases hv
  | cons k rest ih =>
    intro st st' evs h v hv hs
    unfold disableGo at h
    rcases List.mem_cons.mp hv with rfl | hv'
    · rw [if_pos hs] at h
      cases hbk : st.browse v with
      | none => rw [hbk] at h; simp at h
      | some b =>
        rw [hbk] at h
        simp only [] at h
        cases hrec : disableGo
            { st with browse := fun w => if w = v then some (clearBrowsed b) else st.browse w }
            rest with
        | error e => rw [hrec] at h; simp at h
        | ok p =>
          obtain ⟨st3, evs3⟩ := p
          rw [hrec] at h
          simp only [Except.ok.injEq, Prod.mk.injEq] at h
          obtain ⟨h1, h2⟩ := h
          subst h1
          subst h2
          refine ⟨List.mem_cons_self _ _, ?_⟩
          rcases disableGo_browse_mono rest _ _ _ hrec v with hm | hm
          · rw [hm]; simp [clearedBuf_clearBrowsed]
          · exact hm
    · by_cases hk : (st.users k).state = some UserState.requestedShares
      · rw [if_pos hk] at h
        cases hbk : st.browse k with
        | none => rw [hbk] at h; simp at h
        | some b =>
          rw [hbk] at h
          simp only [] at h
          cases hrec : disableGo
              { st with browse := fun w => if w = k then some (clearBrowsed b) else st.browse w }
              rest with
          | error e => rw [hrec] at h; simp at h
          | ok p =>
            obtain ⟨st3, evs3⟩ := p
            rw [hrec] at h
            simp only [Except.ok.injEq, Prod.mk.injEq] at h
            obtain ⟨h1, h2⟩ := h
            subst h1
            subst h2
            obtain ⟨hmem, hclr⟩ := ih _ _ _ hrec v hv' hs
            exact ⟨List.mem_cons_of_mem _ hmem, hclr⟩
      · rw [if_neg hk] at h
        exact ih _ _ _ h v hv' hs

/-! ### Claim theorems -/

/-- Claim C1: a trigger issues a content-listing request exactly when the
eligibility rule holds (state Unknown, or `RequestedShares` with the
request timestamp unset or at least 30 seconds old).  Consequently two
back-to-back triggers on an Unknown peer produce exactly one request in
total, a trigger at least 30 seconds after a stuck request produces
exactly one additional request, and a trigger before 30 seconds produces
zero. -/
theorem c1_request_exactly_when_eligible (st : PluginState) (u : String)
    (r r2 : CheckReason) (now now2 : Int) :
    requestCount (check_user st u r now).2 = (if eligible (st.users u) now then 1 else 0) ∧
    ((st.users u).state = none → now2 - now < 30 →
      requestCount (check_user st u r now).2 +
        requestCount (check_user (check_user st u r now).1 u r2 now2).2 = 1) ∧
    (∀ t : Int, (st.users u).state = some UserState.requestedShares →
      (st.users u).requested_shares = some t →
      ((30 ≤ now - t → requestCount (check_user st u r now).2 = 1) ∧
       (now - t < 30 → requestCount (check_user st u r now).2 = 0))) := by
  refine ⟨check_user_request_count st u r now, ?_, ?_⟩
  · intro h1 h2
    have e1 : eligible (st.users u) now = true := by simp [eligible, h1]
    obtain ⟨hs1, hr1⟩ := check_user_after_none st u r now h1
    have e2 : eligible ((check_user st u r now).1.users u) now2 = false := by
      simp only [eligible, hs1, hr1, cooldownOk]
      simp
      omega
    rw [check_user_request_count, check_user_request_count, e1, e2]
    simp
  · intro t h1 h2
    constructor
    · intro h3
      have e1 : eligible (st.users u) now = true := by
        simp [eligible, h1, h2, cooldownOk, h3]
      rw [check_user_request_count, e1]
      simp
    · intro h3
      have e1 : eligible (st.users u) now = false := by
        simp only [eligible, h1, h2, cooldownOk]
        simp
        omega
      rw [check_user_request_count, e1]
      simp

/-- Witness for C1 at concrete inputs: a fresh Unknown peer issues one
request at time 0 and none for a second trigger at time 10; a peer stuck
in `RequestedShares` since time 0 issues one request at time 40 and none
at time 20. -/
theorem c1_witness :
    requestCount (check_user (fixture defaultSettings User.new none) "alice"
        CheckReason.search 0).2 = 1 ∧
    requestCount (check_user (fixture defaultSettings User.new none) "alice"
          CheckReason.search 0).2 +
      requestCount (check_user
          (check_user (fixture defaultSettings User.new none) "alice" CheckReason.search 0).1
          "alice" CheckReason.privateChat 10).2 = 1 ∧
    requestCount (check_user (fixture defaultSettings recRequested none) "alice"
        CheckReason.search 40).2 = 1 ∧
    requestCount (check_user (fixture defaultSettings recRequested none) "alice"
        CheckReason.search 20).2 = 0 := by
  have hA := c1_request_exactly_when_eligible (fixture defaultSettings User.new none) "alice"
    CheckReason.search CheckReason.privateChat 0 10
  have hB := c1_request_exactly_when_eligible (fixture defaultSettings recRequested none) "alice"
    CheckReason.search CheckReason.search 40 40
  have hC := c1_request_exactly_when_eligible (fixture defaultSettings recRequested none) "alice"
    CheckReason.search CheckReason.search 20 20
  refine ⟨?_, ?_, ?_, ?_⟩
  · rw [hA.1]; decide
  · exact hA.2.1 (by decide) (by decide)
  · exact (hB.2.2 0 (by decide) (by decide)).1 (by decide)
  · exact (hC.2.2 0 (by decide) (by decide)).2 (by decide)

/-- Claim C2: for a peer in `InvestigationRequested`, a processed listing
result with the required fields present clears the peer (empty
private-folders sequence, no enforcement) or flags it (non-empty sequence,
enforcement exactly once). -/
theorem c2_verdict (st : PluginState) (u : String) (b : BrowsedUser)
    (hb : st.browse u = some b) (hf : b.num_folders ≠ none) (hfi : b.num_files ≠ none)
    (hs : (st.users u).state = some UserState.requestedShares) :
    ∃ st' ev, check_shares st u = Except.ok (st', ev) ∧
      (b.private_folders = [] →
        (st'.users u).state = some UserState.noPrivateShares ∧ enforceCount ev = 0) ∧
      (b.private_folders ≠ [] →
        (st'.users u).state = some UserState.hasPrivateShares ∧ enforceCount ev = 1) := by
  obtain ⟨st', ev, h1, h2, h3, -, -, -⟩ := check_shares_complete st u b hb hf hfi
  refine ⟨st', ev, h1, ?_, ?_⟩
  · intro hp
    have hl : b.private_folders.length = 0 := by simp [hp]
    exact ⟨by rw [h2, if_pos hl], by rw [h3, if_pos hl]⟩
  · intro hp
    have hl : ¬b.private_folders.length = 0 := by
      simpa [List.length_eq_zero] using hp
    exact ⟨by rw [h2, if_neg hl], by rw [h3, if_neg hl]⟩

/-- Witness for C2: a listing with one private folder flags `"alice"` with
one enforcement; a listing with none clears her with zero enforcements. -/
theorem c2_witness :
    verdictObs (fixture defaultSettings recRequested (some listingPrivate)) "alice" =
      some (some UserState.hasPrivateShares, 1) ∧
    verdictObs (fixture defaultSettings recRequested (some listingClean)) "alice" =
      some (some UserState.noPrivateShares, 0) := by
  constructor
  · obtain ⟨st', ev, h1, -, h3⟩ :=
      c2_verdict (fixture defaultSettings recRequested (some listingPrivate)) "alice"
        listingPrivate (by decide) (by decide) (by decide) (by decide)
    obtain ⟨hst, hcnt⟩ := h3 (by decide)
    unfold verdictObs
    rw [h1]
    dsimp only
    rw [hst, hcnt]
  · obtain ⟨st', ev, h1, h2, -⟩ :=
      c2_verdict (fixture defaultSettings recRequested (some listingClean)) "alice"
        listingClean (by decide) (by decide) (by decide) (by decide)
    obtain ⟨hst, hcnt⟩ := h2 (by decide)
    unfold verdictObs
    rw [h1]
    dsimp only
    rw [hst, hcnt]

/-- Counterexample to claim C3: the reachable run `scenarioFlag` leaves
`"alice"` Flagged, yet the longer run `scenarioUnflag` — the same run
followed by a later listing delivery and its peer-statistics callback —
leaves her `NoPrivateShares`: a Flagged record's state changed under a
later callback. -/
theorem c3_counterexample :
    stateOf (run startState scenarioFlag) "alice" = some (some UserState.hasPrivateShares) ∧
    stateOf (run startState scenarioUnflag) "alice" = some (some UserState.noPrivateShares) := by
  constructor <;> decide

/-- Claim C3 as amended: under trigger callbacks (`check_user`) every
state change is along Unknown → InvestigationRequested (including the
re-request InvestigationRequested → InvestigationRequested); in
particular a trigger never changes a Flagged or Cleared record's state.
(The listing-result handler is exempt: it classifies from the buffered
listing alone, so a later peer-statistics callback can move even a
Flagged record to Cleared.) -/
theorem c3_trigger_transitions (st : PluginState) (u : String) (r : CheckReason) (now : Int)
    (v : String) :
    ((check_user st u r now).1.users v).state = (st.users v).state ∨
      (v = u ∧ ((st.users v).state = none ∨ (st.users v).state = some UserState.requestedShares) ∧
        ((check_user st u r now).1.users v).state = some UserState.requestedShares) := by
  by_cases hv : v = u
  · subst hv
    cases hst : (st.users v).state with
    | none => exact Or.inr ⟨rfl, Or.inl rfl, (check_user_after_none st v r now hst).1⟩
    | some s =>
      cases s with
      | requestedShares => exact Or.inr ⟨rfl, Or.inr rfl, check_user_req_state st v r now hst⟩
      | hasPrivateShares => exact Or.inl (check_user_flagged_state st v r now hst)
      | noPrivateShares => exact Or.inl ((check_user_cleared_noop st v r now hst).2)
  · exact Or.inl (check_user_state_other st u r now v hv)

/-- Counterexample to claim C4: in the reachable run `scenarioClearedRetry`
the cleared peer `"alice"` receives a fresh trigger 1000 seconds after her
investigation — far beyond the 30-second cooldown — yet stays
`NoPrivateShares` and the whole run contains exactly one listing request
(the initial one), not two. -/
theorem c4_counterexample :
    stateOf (run startState scenarioClearedRetry) "alice" =
      some (some UserState.noPrivateShares) ∧
    requestsOf (run startState scenarioClearedRetry) = some 1 := by
  constructor <;> decide

/-- Claim C4 as amended: a trigger for a peer whose record is `Cleared` is
a no-op regardless of elapsed time: no event is emitted (in particular no
listing request) and the state stays `NoPrivateShares`; cleared peers are
never re-investigated. -/
theorem c4_cleared_noop (st : PluginState) (u : String) (r : CheckReason) (now : Int)
    (hst : (st.users u).state = some UserState.noPrivateShares) :
    (check_user st u r now).2 = [] ∧
    requestCount (check_user st u r now).2 = 0 ∧
    ((check_user st u r now).1.users u).state = some UserState.noPrivateShares := by
  obtain ⟨h1, h2⟩ := check_user_cleared_noop st u r now hst
  exact ⟨h1, by rw [h1]; rfl, h2⟩

/-- Witness for C4 (amended): the cleared fixture peer triggered at time
1000 produces no events and stays cleared. -/
theorem c4_witness :
    (check_user (fixture defaultSettings recCleared none) "alice" CheckReason.search 1000).2
        = [] ∧
    requestCount (check_user (fixture defaultSettings recCleared none) "alice"
        CheckReason.search 1000).2 = 0 ∧
    ((check_user (fixture defaultSettings recCleared none) "alice"
        CheckReason.search 1000).1.users "alice").state = some UserState.noPrivateShares :=
  c4_cleared_noop (fixture defaultSettings recCleared none) "alice" CheckReason.search 1000
    (by decide)

/-- Claim C5: enforcement is idempotent — across two consecutive
enforcements of the same identity the network-filter block call happens at
most once in total, the notification message is sent in at most one of
the two calls, and with zero matching transfers in the queued, active and
failed queues no transfer is aborted (the calls complete normally). -/
theorem c5_enforcement_idempotent (st : PluginState) (u : String) :
    banCallCount ((ban_user st u).2 ++ (ban_user (ban_user st u).1 u).2) ≤ 1 ∧
    (hasSend (ban_user st u).2 = false ∨ hasSend (ban_user (ban_user st u).1 u).2 = false) ∧
    ((st.queued u = [] ∧ st.active u = [] ∧ st.failed u = []) →
      abortCount ((ban_user st u).2 ++ (ban_user (ban_user st u).1 u).2) = 0) := by
  refine ⟨?_, ?_, ?_⟩
  · rw [banCallCount_append, ban_user_banCall, ban_user_banCall,
        if_pos (ban_user_mem_banned st u)]
    split <;> omega
  · cases hsend : hasSend (ban_user st u).2 with
    | false => exact Or.inl rfl
    | true => exact Or.inr (ban_user_sent_no_send _ _ (ban_user_send_sets st u hsend))
  · rintro ⟨hq, ha, hf⟩
    have hqs := ban_user_queues st u
    rw [abortCount_append, ban_user_abort_zero st u hq ha hf,
        ban_user_abort_zero _ _ (by rw [hqs.1]; exact hq) (by rw [hqs.2.1]; exact ha)
          (by rw [hqs.2.2]; exact hf)]

/-- Witness for C5: two enforcements of `"alice"` on the fixture state
(empty transfer queues). -/
theorem c5_witness :
    banCallCount ((ban_user (fixture defaultSettings User.new none) "alice").2 ++
        (ban_user (ban_user (fixture defaultSettings User.new none) "alice").1 "alice").2) ≤ 1 ∧
    (hasSend (ban_user (fixture defaultSettings User.new none) "alice").2 = false ∨
      hasSend (ban_user (ban_user (fixture defaultSettings User.new none) "alice").1
        "alice").2 = false) ∧
    abortCount ((ban_user (fixture defaultSettings User.new none) "alice").2 ++
        (ban_user (ban_user (fixture defaultSettings User.new none) "alice").1 "alice").2)
      = 0 := by
  have h := c5_enforcement_idempotent (fixture defaultSettings User.new none) "alice"
  exact ⟨h.1, h.2.1, h.2.2 ⟨rfl, rfl, rfl⟩⟩

/-- Counterexample to claim C6: an invocation of the listing-result
handler on an incomplete listing releases no watch and leaves the
buffered (non-cleared) listing data in place. -/
theorem c6_counterexample :
    watchObs (fixture defaultSettings recRequested (some listingIncomplete)) "alice" =
      some (0, some listingIncomplete) ∧
    clearedBuf (some listingIncomplete) = false := by
  constructor <;> decide

/-- Claim C6 as amended: the watch is released and the buffer discarded on
every invocation that reaches a verdict (complete listing, whether cleared
or flagged); an incomplete-listing invocation instead returns early and
keeps both; at shutdown `disable` releases the watch and clears the buffer
for every record still in `InvestigationRequested`. -/
theorem c6_watch_release (st : PluginState) (u : String) (b : BrowsedUser)
    (hb : st.browse u = some b) (hf : b.num_folders ≠ none) (hfi : b.num_files ≠ none) :
    (∃ st' ev, check_shares st u = Except.ok (st', ev) ∧ unwatchCount ev = 1 ∧
      st'.browse u = some (clearBrowsed b)) ∧
    (∀ b2 : BrowsedUser, b2.num_folders = none ∨ b2.num_files = none →
      ∀ st2 : PluginState, st2.browse u = some b2 →
        check_shares st2 u = Except.ok (st2, [Event.log (u ++ ": shares are None")])) ∧
    (∀ st2 st' evs, disable st2 = Except.ok (st', evs) →
      ∀ v ∈ st2.userKeys, (st2.users v).state = some UserState.requestedShares →
        Event.unwatch v ∈ evs ∧ clearedBuf (st'.browse v) = true) := by
  refine ⟨?_, ?_, ?_⟩
  · obtain ⟨st', ev, h1, -, -, h4, h5, -⟩ := check_shares_complete st u b hb hf hfi
    exact ⟨st', ev, h1, h4, h5⟩
  · intro b2 h2 st2 hb2
    exact check_shares_incomplete_eq st2 u b2 hb2 h2
  · intro st2 st' evs hd v hv hs
    exact disableGo_unwatch st2.userKeys st2 st' evs hd v hv hs

/-- Witness for C6 (amended): a complete listing releases the watch once
and clears the buffer; `disable` on a peer still in `RequestedShares`
unwatches her and clears her buffer. -/
theorem c6_witness :
    watchObs (fixture defaultSettings recRequested (some listingClean)) "alice" =
      some (1, some (clearBrowsed listingClean)) ∧
    disableObs (fixture defaultSettings recRequested (some listingClean)) "alice" =
      some (true, true) := by
  have h := c6_watch_release (fixture defaultSettings recRequested (some listingClean))
    "alice" listingClean (by decide) (by decide) (by decide)
  constructor
  · obtain ⟨st', ev, h1, h2, h3⟩ := h.1
    unfold watchObs
    rw [h1]
    dsimp only
    rw [h2, h3]
  · have hok : okResult (disable (fixture defaultSettings recRequested (some listingClean)))
        = true := by decide
    unfold disableObs
    cases hd : disable (fixture defaultSettings recRequested (some listingClean)) with
    | error e =>
      rw [hd] at hok
      simp [okResult] at hok
    | ok p =>
      obtain ⟨st3, evs3⟩ := p
      obtain ⟨hm, hc⟩ := h.2.2 _ st3 evs3 hd "alice" (by decide) (by decide)
      simp [hm, hc]

/-- Claim C7: an incomplete listing (required field absent) makes the
listing-result handler log and return with the state wholly unchanged —
the peer stays `InvestigationRequested` — and the peer is still eligible
for retry once the 30-second cooldown has elapsed. -/
theorem c7_incomplete_unchanged (st : PluginState) (u : String) (b : BrowsedUser)
    (t now : Int) (hb : st.browse u = some b)
    (h : b.num_folders = none ∨ b.num_files = none)
    (hs : (st.users u).state = some UserState.requestedShares)
    (hr : (st.users u).requested_shares = some t) :
    check_shares st u = Except.ok (st, [Event.log (u ++ ": shares are None")]) ∧
    (30 ≤ now - t → (should_request_shares (st.users u) now).1 = true) := by
  refine ⟨check_shares_incomplete_eq st u b hb h, ?_⟩
  intro h30
  simp [should_request_shares, eligible, hs, hr, cooldownOk, h30]

/-- Witness for C7: the incomplete-listing fixture returns unchanged with
only the log line, and `"alice"` is again eligible at time 50. -/
theorem c7_witness :
    check_shares (fixture defaultSettings recRequested (some listingIncomplete)) "alice" =
      Except.ok (fixture defaultSettings recRequested (some listingIncomplete),
        [Event.log ("alice" ++ ": shares are None")]) ∧
    (should_request_shares
      ((fixture defaultSettings recRequested (some listingIncomplete)).users "alice") 50).1
      = true := by
  have h := c7_incomplete_unchanged (fixture defaultSettings recRequested (some listingIncomplete))
    "alice" listingIncomplete 0 50 (by decide) (by decide) (by decide) (by decide)
  exact ⟨h.1, h.2 (by decide)⟩

theorem isSendEv_log (m : String) : isSendEv (Event.log m) = false := rfl

theorem isSendEv_banCall (u : String) : isSendEv (Event.banCall u) = false := rfl

theorem isSendEv_enforce (u : String) : isSendEv (Event.enforce u) = false := rfl

/-- With messaging enabled, a non-blank message, and a not-yet-notified
record, `ban_user` marks the record notified and sends exactly the
configured message lines (trailing whitespace stripped). -/
theorem ban_user_sends (st : PluginState) (u : String)
    (h2 : st.settings.send_message = true) (h3 : ¬pyStrip st.settings.message = "")
    (h4 : (st.users u).sent_message = false) :
    ((ban_user st u).1.users u).sent_message = true ∧
    sendEvents (ban_user st u).2 =
      (splitlines st.settings.message).map (fun l => Event.sendPrivate u l.trimRight) := by
  unfold ban_user transferEvents sendEvents
  by_cases hb : u ∈ st.banned <;>
    simp [hb, h4, check_message, h2, h3, setUserFn, List.filter_append, List.filter_cons,
          List.filter_nil, filter_send_abortMap, filter_send_sendMap,
          isSendEv_log, isSendEv_banCall, isSendEv_enforce] <;>
    (repeat (split <;>
      simp_all [setUserFn, List.filter_append, List.filter_cons, List.filter_nil,
                filter_send_abortMap, filter_send_sendMap,
                isSendEv_log, isSendEv_banCall, isSendEv_enforce]))

/-- Claim C8: with message sending enabled but a blank configured message,
the first `check_message` use reports failure, logs the warning once,
disables the feature for the rest of the run (a second use is a silent
no-op), and no enforcement — now or later — sends any message line. -/
theorem c8_blank_message_disables (st : PluginState) (u v : String)
    (h1 : st.settings.send_message = true) (h2 : pyStrip st.settings.message = "") :
    (check_message st).1 = false ∧
    (check_message st).2.1.settings.send_message = false ∧
    (check_message st).2.2 = [Event.log "message is empty, disabling message sending"] ∧
    check_message (check_message st).2.1 = (false, (check_message st).2.1, []) ∧
    hasSend (ban_user st u).2 = false ∧
    hasSend (ban_user (ban_user st u).1 v).2 = false := by
  refine ⟨?_, ?_, ?_, ?_, ?_, ?_⟩
  · simp [check_message, h1, h2]
  · simp [check_message, h1, h2]
  · simp [check_message, h1, h2]
  · simp [check_message, h1, h2]
  · exact ban_user_blank_no_send st u h2
  · exact ban_user_blank_no_send _ v (by rw [ban_user_settings_msg]; exact h2)

/-- Witness for C8 at the blank-message fixture. -/
theorem c8_witness :
    (check_message (fixture blankMsgSettings User.new none)).1 = false ∧
    (check_message (fixture blankMsgSettings User.new none)).2.1.settings.send_message
      = false ∧
    (check_message (fixture blankMsgSettings User.new none)).2.2
      = [Event.log "message is empty, disabling message sending"] ∧
    hasSend (ban_user (fixture blankMsgSettings User.new none) "alice").2 = false ∧
    hasSend (ban_user (ban_user (fixture blankMsgSettings User.new none) "alice").1
      "bob").2 = false := by
  have h := c8_blank_message_disables (fixture blankMsgSettings User.new none) "alice" "bob"
    (by decide) (by decide)
  exact ⟨h.1, h.2.1, h.2.2.1, h.2.2.2.2.1, h.2.2.2.2.2⟩

/-- Counterexample to claim C9: right after startup, a peer-statistics
callback with source `"peer"` for the unknown identity `"alice"` raises
(`KeyError` on the listing buffer store) instead of returning normally. -/
theorem c9_counterexample :
    okResult (user_stats_notification startState "alice" "peer") = false := by decide

/-- Claim C9 as amended: statistics from non-peer sources are ignored
without error, and — provided the identity is present in the listing
buffer store with a complete listing — a peer-statistics callback for an
identity with no record creates the record on demand and classifies it,
without error.  (Without a buffer entry the handler raises a lookup
error, as the counterexample shows.) -/
theorem c9_stats_creates_record (st : PluginState) (u : String) (b : BrowsedUser)
    (hb : st.browse u = some b) (hf : b.num_folders ≠ none) (hfi : b.num_files ≠ none)
    (hnew : (st.users u).state = none) (hkeys : u ∉ st.userKeys) :
    (∀ s : String, s ≠ "peer" → user_stats_notification st u s = Except.ok (st, [])) ∧
    (∃ st' ev, user_stats_notification st u "peer" = Except.ok (st', ev) ∧
      u ∈ st'.userKeys ∧
      ((st'.users u).state = some UserState.noPrivateShares ∨
        (st'.users u).state = some UserState.hasPrivateShares)) := by
  constructor
  · intro s hsrc
    unfold user_stats_notification
    rw [if_pos hsrc]
  · obtain ⟨st', ev, h1, h2, -, -, -, h6⟩ := check_shares_complete st u b hb hf hfi
    refine ⟨st', ev, ?_, h6, ?_⟩
    · unfold user_stats_notification
      rw [if_neg (by simp)]
      exact h1
    · by_cases hp : b.private_folders.length = 0
      · left; rw [h2, if_pos hp]
      · right; rw [h2, if_neg hp]

/-- Witness for C9 (amended): with a buffered clean listing for the
unknown identity `"alice"`, the peer-statistics callback succeeds and
materialises her record; a `"server"`-sourced callback is a no-op. -/
theorem c9_witness :
    (statsObs freshBrowseState "alice" = some (true, some UserState.noPrivateShares) ∨
      statsObs freshBrowseState "alice" = some (true, some UserState.hasPrivateShares)) ∧
    user_stats_notification freshBrowseState "alice" "server" =
      Except.ok (freshBrowseState, []) := by
  have h := c9_stats_creates_record freshBrowseState "alice" listingClean
    (by decide) (by decide) (by decide) (by decide) (by decide)
  constructor
  · obtain ⟨st', ev, h1, h2, h3⟩ := h.2
    unfold statsObs
    rw [h1]
    dsimp only
    rcases h3 with h3 | h3
    · left; rw [h3]; simp [h2]
    · right; rw [h3]; simp [h2]
  · exact h.1 "server" (by decide)

/-- Claim C10: enforcement while messaging is off leaves `sent_message`
(the `notifiedOnce` flag) unchanged and sends nothing, so the same peer
can still be notified by a later enforcement once messaging is enabled
with a non-blank message: that enforcement sends exactly the configured
lines and only then marks the record notified. -/
theorem c10_notified_only_when_sent (st st2 : PluginState) (u : String)
    (h1 : st.settings.send_message = false)
    (h2 : st2.settings.send_message = true)
    (h3 : ¬pyStrip st2.settings.message = "")
    (h4 : (st2.users u).sent_message = false) :
    ((ban_user st u).1.users u).sent_message = (st.users u).sent_message ∧
    hasSend (ban_user st u).2 = false ∧
    ((ban_user st2 u).1.users u).sent_message = true ∧
    sendEvents (ban_user st2 u).2 =
      (splitlines st2.settings.message).map (fun l => Event.sendPrivate u l.trimRight) := by
  obtain ⟨hu, hsend⟩ := ban_user_off_frame st u h1
  obtain ⟨hset, hlines⟩ := ban_user_sends st2 u h2 h3 h4
  exact ⟨by rw [hu], hsend, hset, hlines⟩

/-- Witness for C10: enforcement with messaging off leaves `"alice"`
un-notified and sends nothing; enforcement under `msgSettings` notifies
her and sends exactly the two configured lines. -/
theorem c10_witness :
    ((ban_user (fixture defaultSettings User.new none) "alice").1.users "alice").sent_message
        = ((fixture defaultSettings User.new none).users "alice").sent_message ∧
    hasSend (ban_user (fixture defaultSettings User.new none) "alice").2 = false ∧
    ((ban_user (fixture msgSettings User.new none) "alice").1.users "alice").sent_message
        = true ∧
    sendEvents (ban_user (fixture msgSettings User.new none) "alice").2 =
      (splitlines msgSettings.message).map
        (fun l => Event.sendPrivate "alice" l.trimRight) :=
  c10_notified_only_when_sent (fixture defaultSettings User.new none)
    (fixture msgSettings User.new none) "alice" (by decide) (by decide) (by decide) (by decide)

end PrivateSharesBanner
